import Mathlib

/-!
Shallow embedding of the tenant connection router and tenant provisioner of the
`nest-multi-tenant-architecture` repository.

The embedding covers:
* `src/core/connection/tenant-connection.manager.ts` (`TenantConnectionManager`):
  the session cache (`tenantConnections`), the single-flight map
  (`initializationPromises`), `getDataSourceForTenant`,
  `initializeTenantConnection`, `closeTenantConnection`, `closeAllConnections`;
* `src/core/tenant/tenant.service.ts` (`TenantService`): `createTenant` and
  `provisionTenantDatabase`;
* `src/config/typeorm.config.ts`: `createTenantDataSource` and
  `createCentralDataSource` pool-option handling.

Asynchronous effects (registry queries, pool connects, pool destroys) are
modelled by explicit outcome parameters; JavaScript `Map`s are modelled as
association lists with unique keys; a TypeORM `DataSource` is modelled by the
identity of the pool object plus its `isInitialized` flag.
-/

namespace NestMultiTenant

/-- A TypeORM `DataSource`: a pooled database client handle.  `dsId` is the
identity of the pool object (which physical pool it is); `isInitialized` is the
connectivity flag the manager reads. -/
structure DataSource where
  dsId : Nat
  isInitialized : Bool
deriving DecidableEq, Repr

/-- Lookup in a JavaScript `Map` modelled as an association list
(`Map.prototype.get`). -/
def getKey {α : Type} (k : String) : List (String × α) → Option α
  | [] => none
  | (k', v) :: rest => if k = k' then some v else getKey k rest

/-- Update in a JavaScript `Map` (`Map.prototype.set`): overwrite the entry for
`k` if present, append otherwise. -/
def setKey {α : Type} (k : String) (v : α) : List (String × α) → List (String × α)
  | [] => [(k, v)]
  | (k', v') :: rest => if k = k' then (k, v) :: rest else (k', v') :: setKey k v rest

/-- Removal from a JavaScript `Map` (`Map.prototype.delete`).  Keys are unique,
so removing the first occurrence removes the only one. -/
def delKey {α : Type} (k : String) : List (String × α) → List (String × α)
  | [] => []
  | (k', v') :: rest => if k = k' then rest else (k', v') :: delKey k rest

/-- `poolOptions` (jsonb column on the `tenants` table, and the
`PoolOptionsDto`): each recognized key may be absent. -/
structure PoolOptions where
  max : Option Nat := none
  min : Option Nat := none
  acquireTimeout : Option Nat := none
  timeout : Option Nat := none
  idleTimeoutMillis : Option Nat := none
deriving DecidableEq, Repr

/-- A row of the central `tenants` table (`tenant.entity.ts`). -/
structure Tenant where
  id : String
  name : String
  dbHost : String
  dbPort : Nat
  dbName : String
  dbUser : String
  dbPassword : String
  poolOptions : Option PoolOptions
  active : Bool
  createdAt : Nat
deriving DecidableEq, Repr

/-- The registry lookup
`tenantRepository.findOne({ where: { id: tenantId, active: true } })`:
first row whose id matches and whose active flag is set. -/
def findActiveTenant (t : String) : List Tenant → Option Tenant
  | [] => none
  | r :: rest => if r.id = t ∧ r.active = true then some r else findActiveTenant t rest

/-- JavaScript `x || d` on an optional number: `undefined` and `0` are falsy,
so both fall back to `d`. -/
def jsOrNat : Option Nat → Nat → Nat
  | none, d => d
  | some v, d => if v = 0 then d else v

/-- The `extra` object built by `createTenantDataSource`.  The literal lists
`connectionLimit`, `acquireTimeout`, `timeout` and `idleTimeoutMillis` computed
with `||` fallbacks and then spreads `...dbConfig.poolOptions`; the spread
overwrites a computed key whenever the option carries that key (even with the
value `0`) and adds the raw `max`/`min` keys when they are set. -/
structure TenantDSExtra where
  connectionLimit : Nat
  acquireTimeout : Nat
  timeout : Nat
  idleTimeoutMillis : Nat
  max : Option Nat
  min : Option Nat
deriving DecidableEq, Repr

/-- The options object `createTenantDataSource` passes to `new DataSource`,
restricted to the connection coordinates and pool-sizing fields. -/
structure TenantDSConfig where
  host : String
  port : Nat
  username : String
  password : String
  database : String
  poolSize : Nat
  extra : TenantDSExtra
deriving DecidableEq, Repr

/-- The `dbConfig` argument of `createTenantDataSource`. -/
structure TenantDbConfig where
  host : String
  port : Nat
  username : String
  password : String
  database : String
  poolOptions : Option PoolOptions
deriving DecidableEq, Repr

/-- `createTenantDataSource` (`typeorm.config.ts`): `poolSize` and
`extra.connectionLimit` are `poolOptions?.max || 5`; the timeout keys are the
`||` defaults overwritten by the spread of `poolOptions` when the key is set;
the spread also copies `max` and `min` into `extra` verbatim.  A missing
`poolOptions` object behaves like an object with every key absent. -/
def createTenantDataSource (dbConfig : TenantDbConfig) : TenantDSConfig :=
  let o := dbConfig.poolOptions.getD {}
  { host := dbConfig.host
    port := dbConfig.port
    username := dbConfig.username
    password := dbConfig.password
    database := dbConfig.database
    poolSize := jsOrNat o.max 5
    extra :=
      { connectionLimit := jsOrNat o.max 5
        acquireTimeout := o.acquireTimeout.getD 60000
        timeout := o.timeout.getD 60000
        idleTimeoutMillis := o.idleTimeoutMillis.getD 30000
        max := o.max
        min := o.min } }

/-- The pool-sizing part of `createCentralDataSource` (`typeorm.config.ts`):
`poolSize: 10` and `extra: {connectionLimit: 10, acquireTimeout: 60000,
timeout: 60000}`. -/
structure CentralDSConfig where
  poolSize : Nat
  connectionLimit : Nat
  acquireTimeout : Nat
  timeout : Nat
deriving DecidableEq, Repr

/-- `createCentralDataSource`, restricted to its fixed pool options. -/
def createCentralDataSource : CentralDSConfig :=
  { poolSize := 10, connectionLimit := 10, acquireTimeout := 60000, timeout := 60000 }

/-- Pool configuration as the specification words it ("unset keys fall back to
defaults, never to zero", defaults max 5, min 0, acquire timeout 60000, idle
timeout 30000; set keys override).  Written from the spec sentence, to be
compared with `createTenantDataSource`. -/
structure ClaimedPoolConfig where
  max : Nat
  min : Nat
  acquireTimeoutMs : Nat
  idleTimeoutMs : Nat
deriving DecidableEq, Repr

/-- The effective pool configuration the specification claims for a tenant
session: every set key overrides its default, every unset key is the default. -/
def claimedTenantPoolConfig (o : PoolOptions) : ClaimedPoolConfig :=
  { max := o.max.getD 5
    min := o.min.getD 0
    acquireTimeoutMs := o.acquireTimeout.getD 60000
    idleTimeoutMs := o.idleTimeoutMillis.getD 30000 }

/-- Mutable state of a `TenantConnectionManager` instance: the session cache
`tenantConnections`, the single-flight map `initializationPromises`
(tenant id to promise identity), and fresh-identity counters for pool objects
and promises. -/
structure RouterState where
  tenantConnections : List (String × DataSource)
  initializationPromises : List (String × Nat)
  nextDsId : Nat
  nextPid : Nat
deriving DecidableEq, Repr

/-- What a `getDataSourceForTenant` call settles to: a session, a thrown
`Error` with its message, or (for a call that finds an initialization already
in flight) the in-flight promise it returned. -/
inductive CallResult where
  | ok (ds : DataSource)
  | err (msg : String)
  | awaitedPending (pid : Nat)
deriving DecidableEq, Repr

/-- Observable output of one sequential `getDataSourceForTenant` call: its
result, the manager state afterwards, how many registry reads it performed and
how many pool objects it constructed via the session factory. -/
structure CallOutput where
  res : CallResult
  st : RouterState
  registryReads : Nat
  factoryCalls : Nat
deriving DecidableEq, Repr

/-- `initializeTenantConnection` (manager lines 51-81): one registry read
filtered by `id = tenantId AND active = true`; on a miss it throws
`Tenant not found or inactive`; on a hit it constructs a pool object via
`createTenantDataSource` and attempts `initialize()`, whose outcome is the
`connectOk` parameter — failure throws
`Failed to initialize tenant connection`. -/
def initializeTenantConnection (reg : List Tenant) (connectOk : Bool) (t : String)
    (st : RouterState) : CallResult × RouterState × Nat × Nat :=
  match findActiveTenant t reg with
  | none => (.err ("Tenant not found or inactive: " ++ t), st, 1, 0)
  | some _ =>
    let ds : DataSource := { dsId := st.nextDsId, isInitialized := connectOk }
    let st' := { st with nextDsId := st.nextDsId + 1 }
    if connectOk then (.ok ds, st', 1, 1)
    else (.err ("Failed to initialize tenant connection: " ++ t), st', 1, 1)

/-- The tail of `getDataSourceForTenant` after the cache check (manager lines
29-45): return a pending promise if one exists, otherwise register a fresh
promise, run the initialization, on success store the session in the cache,
and in both cases delete the pending entry (the `finally` block). -/
def getDataSourceSlow (reg : List Tenant) (connectOk : Bool) (t : String)
    (st : RouterState) : CallOutput :=
  match getKey t st.initializationPromises with
  | some pid => { res := .awaitedPending pid, st := st, registryReads := 0, factoryCalls := 0 }
  | none =>
    let st1 := { st with
      initializationPromises := setKey t st.nextPid st.initializationPromises
      nextPid := st.nextPid + 1 }
    match initializeTenantConnection reg connectOk t st1 with
    | (.ok ds, st2, reads, fc) =>
      let st3 := { st2 with tenantConnections := setKey t ds st2.tenantConnections }
      { res := .ok ds
        st := { st3 with initializationPromises := delKey t st3.initializationPromises }
        registryReads := reads, factoryCalls := fc }
    | (r, st2, reads, fc) =>
      { res := r
        st := { st2 with initializationPromises := delKey t st2.initializationPromises }
        registryReads := reads, factoryCalls := fc }

/-- `getDataSourceForTenant` (manager lines 22-46): a cached session whose pool
reports `isInitialized` is returned at once with no registry read; otherwise
the slow path runs. -/
def getDataSourceForTenant (reg : List Tenant) (connectOk : Bool) (t : String)
    (st : RouterState) : CallOutput :=
  match getKey t st.tenantConnections with
  | some c =>
    if c.isInitialized then { res := .ok c, st := st, registryReads := 0, factoryCalls := 0 }
    else getDataSourceSlow reg connectOk t st
  | none => getDataSourceSlow reg connectOk t st

/-- Observable output of a close operation: whether it threw (with the failing
message), the manager state afterwards, and how many `destroy()` calls it
issued. -/
structure CloseOutput where
  threw : Option String
  st : RouterState
  destroyCalls : Nat
deriving DecidableEq, Repr

/-- `closeTenantConnection` (manager lines 94-101): only an existing cache
entry whose pool reports `isInitialized` is destroyed and removed; `destroyOk`
gives the outcome of `connection.destroy()` for a pool identity, and a
rejection propagates out of the method before the map deletion runs. -/
def closeTenantConnection (destroyOk : Nat → Bool) (t : String) (st : RouterState) :
    CloseOutput :=
  match getKey t st.tenantConnections with
  | some c =>
    if c.isInitialized then
      if destroyOk c.dsId then
        { threw := none
          st := { st with tenantConnections := delKey t st.tenantConnections }
          destroyCalls := 1 }
      else { threw := some ("destroy failed: " ++ t), st := st, destroyCalls := 1 }
    else { threw := none, st := st, destroyCalls := 0 }
  | none => { threw := none, st := st, destroyCalls := 0 }

/-- `closeAllConnections` (manager lines 106-121): every initialized cached
pool's `destroy()` is started concurrently and `Promise.all` awaits them all.
If every destroy resolves, both maps are cleared; if any rejects, `Promise.all`
rejects, the method throws and neither map is cleared (pools whose destroy did
resolve now report not initialized). -/
def closeAllConnections (destroyOk : Nat → Bool) (st : RouterState) : CloseOutput :=
  let attempts := st.tenantConnections.filter (fun e => e.2.isInitialized)
  if attempts.all (fun e => destroyOk e.2.dsId) then
    { threw := none
      st := { st with tenantConnections := [], initializationPromises := [] }
      destroyCalls := attempts.length }
  else
    { threw := some "destroy failed"
      st := { st with tenantConnections :=
        st.tenantConnections.map (fun e =>
          if e.2.isInitialized && destroyOk e.2.dsId then
            (e.1, { e.2 with isInitialized := false }) else e) }
      destroyCalls := attempts.length }

/-- Outcome of an in-flight `initializeTenantConnection` run: the registry
lookup misses, or the pool is constructed and its `initialize()` rejects, or
it resolves. -/
inductive InitOutcome where
  | notFound
  | connectFail
  | connected
deriving DecidableEq, Repr

/-- State of the concurrent single-flight protocol for one tenant id: the
manager state, which callers are awaiting the pending promise (the initiator
included — it awaits its own promise), which callers were served a session
straight from the cache, and how many pool objects the session factory has
constructed. -/
structure ConcState where
  st : RouterState
  joined : List Nat
  served : List (Nat × DataSource)
  factoryCalls : Nat
deriving DecidableEq, Repr

/-- A caller that passed the cache check: it joins a pending initialization if
one exists, otherwise it registers a fresh promise and becomes the initiator
(manager lines 29-37).  The check-then-set runs without an intervening await,
so on the single-threaded event loop it is atomic. -/
def concJoin (t : String) (caller : Nat) (s : ConcState) : ConcState :=
  match getKey t s.st.initializationPromises with
  | some _ => { s with joined := s.joined ++ [caller] }
  | none =>
    { s with
      st := { s.st with
        initializationPromises := setKey t s.st.nextPid s.st.initializationPromises
        nextPid := s.st.nextPid + 1 }
      joined := s.joined ++ [caller] }

/-- One caller's synchronous pass through `getDataSourceForTenant` while the
per-tenant initialization (if any) is still in flight: cache check first, then
the join/initiate step. -/
def concArrive (t : String) (caller : Nat) (s : ConcState) : ConcState :=
  match getKey t s.st.tenantConnections with
  | some c =>
    if c.isInitialized then { s with served := s.served ++ [(caller, c)] }
    else concJoin t caller s
  | none => concJoin t caller s

/-- Settlement of the single in-flight initialization with outcome `o`: the
one result every caller awaiting the promise receives, and the state after the
initiator's continuation (cache insert on success, then the `finally`
deletion of the pending entry).  The factory constructs a pool object exactly
when the registry lookup succeeded. -/
def concSettle (t : String) (o : InitOutcome) (s : ConcState) : CallResult × ConcState :=
  match o with
  | .notFound =>
    (.err ("Tenant not found or inactive: " ++ t),
     { s with st := { s.st with
        initializationPromises := delKey t s.st.initializationPromises } })
  | .connectFail =>
    (.err ("Failed to initialize tenant connection: " ++ t),
     { s with
        st := { s.st with
          nextDsId := s.st.nextDsId + 1
          initializationPromises := delKey t s.st.initializationPromises }
        factoryCalls := s.factoryCalls + 1 })
  | .connected =>
    let ds : DataSource := { dsId := s.st.nextDsId, isInitialized := true }
    (.ok ds,
     { s with
        st := { s.st with
          nextDsId := s.st.nextDsId + 1
          tenantConnections := setKey t ds s.st.tenantConnections
          initializationPromises := delKey t s.st.initializationPromises }
        factoryCalls := s.factoryCalls + 1 })

/-- N concurrent `getDataSourceForTenant` calls for the same tenant id, in
arrival order `callers`, all arriving while no settlement has happened yet,
followed by the settlement of the in-flight initialization. -/
def concRun (t : String) (callers : List Nat) (o : InitOutcome) (s : ConcState) :
    CallResult × ConcState :=
  concSettle t o (callers.foldl (fun s c => concArrive t c s) s)

/-- `database` part of `CreateTenantDto` (`create-tenant.dto.ts`); `port` is
optional. -/
structure DatabaseConfigDto where
  host : String
  port : Option Nat
  username : String
  password : String
deriving DecidableEq, Repr

/-- `adminUser` payload of `CreateTenantDto`. -/
structure AdminUserDto where
  email : String
  password : String
  firstName : String
  lastName : String
deriving DecidableEq, Repr

/-- `CreateTenantDto`. -/
structure CreateTenantDto where
  name : String
  database : DatabaseConfigDto
  poolOptions : Option PoolOptions
  adminUser : Option AdminUserDto
deriving DecidableEq, Repr

/-- `TenantResponseDto`. -/
structure TenantResponse where
  id : String
  name : String
  active : Bool
  createdAt : Nat
  adminToken : Option String
  status : String
deriving DecidableEq, Repr

/-- What `createTenant` settles to: a response, or a thrown
`BadRequestException` with its message. -/
inductive CreateTenantResult where
  | ok (r : TenantResponse)
  | badRequest (msg : String)
deriving DecidableEq, Repr

/-- Outcomes of the effectful steps of `createTenant` and the values the
environment supplies: the uuid the registry generates on insert, each step's
failure cause (`none` means the step succeeds), the issued admin token, and
the creation timestamp. -/
structure ProvisionEnv where
  genId : String
  save1Err : Option String
  save2Err : Option String
  provisionErr : Option String
  migrateErr : Option String
  adminUserErr : Option String
  tokenErr : Option String
  adminTokenValue : String
  now : Nat
deriving DecidableEq, Repr

/-- The `tenant.id.replace` step: every dash of the id becomes an
underscore. -/
def replaceDashes (s : String) : String :=
  s.map (fun c => if c = '-' then '_' else c)

/-- The derived database name: the literal `tenant_` followed by the id with
dashes replaced by underscores. -/
def dbNameForId (id : String) : String :=
  "tenant_" ++ replaceDashes id

/-- `tenantRepository.update(id, patch)`: apply the patch to every row whose id
matches. -/
def updateTenant (id : String) (f : Tenant → Tenant) (reg : List Tenant) : List Tenant :=
  reg.map (fun r => if r.id = id then f r else r)

/-- `createTenant` (`tenant.service.ts` lines 31-103).  The entity is created
with `active: true` and an empty `dbName`, inserted to obtain the generated id,
updated with the derived `dbName`, then the database is provisioned, migrations
run, and the optional admin user is bootstrapped.  The `catch` block updates
the entity's id to `active: false` (before the first save that id is still
unset, modelled as the empty string) and rethrows
`BadRequestException('Tenant creation failed: ' + cause)`. -/
def createTenant (env : ProvisionEnv) (dto : CreateTenantDto) (reg : List Tenant) :
    CreateTenantResult × List Tenant :=
  let tenant0 : Tenant :=
    { id := "", name := dto.name, dbHost := dto.database.host
      dbPort := jsOrNat dto.database.port 5432, dbName := ""
      dbUser := dto.database.username, dbPassword := dto.database.password
      poolOptions := dto.poolOptions, active := true, createdAt := env.now }
  match env.save1Err with
  | some e =>
    (.badRequest ("Tenant creation failed: " ++ e),
     updateTenant "" (fun r => { r with active := false }) reg)
  | none =>
    let tid := env.genId
    let reg1 := reg ++ [{ tenant0 with id := tid }]
    let fail := fun (e : String) (l : List Tenant) =>
      ((.badRequest ("Tenant creation failed: " ++ e) : CreateTenantResult),
       updateTenant tid (fun r => { r with active := false }) l)
    match env.save2Err with
    | some e => fail e reg1
    | none =>
      let reg2 := updateTenant tid (fun r => { r with dbName := dbNameForId tid }) reg1
      match env.provisionErr with
      | some e => fail e reg2
      | none =>
        match env.migrateErr with
        | some e => fail e reg2
        | none =>
          match dto.adminUser with
          | none =>
            (.ok { id := tid, name := dto.name, active := true, createdAt := env.now
                   adminToken := none, status := "provisioned" }, reg2)
          | some _ =>
            match env.adminUserErr with
            | some e => fail e reg2
            | none =>
              match env.tokenErr with
              | some e => fail e reg2
              | none =>
                (.ok { id := tid, name := dto.name, active := true, createdAt := env.now
                       adminToken := some env.adminTokenValue, status := "provisioned" }, reg2)

/-- The cause of the first failing step of `createTenant` after a successful
initial insert, in the order the code runs the steps. -/
def firstFailureAfterInsert (env : ProvisionEnv) (dto : CreateTenantDto) : Option String :=
  env.save2Err <|> env.provisionErr <|> env.migrateErr <|>
    (match dto.adminUser with
     | none => none
     | some _ => env.adminUserErr <|> env.tokenErr)

/-- The registry row as the first save inserts it: `active := true`, `dbName`
still the empty placeholder, id the generated uuid. -/
def insertedTenant (env : ProvisionEnv) (dto : CreateTenantDto) : Tenant :=
  { id := env.genId, name := dto.name, dbHost := dto.database.host
    dbPort := jsOrNat dto.database.port 5432, dbName := ""
    dbUser := dto.database.username, dbPassword := dto.database.password
    poolOptions := dto.poolOptions, active := true, createdAt := env.now }

/-- The registry row after the second save finalizes `dbName`. -/
def provisionedTenant (env : ProvisionEnv) (dto : CreateTenantDto) : Tenant :=
  { insertedTenant env dto with dbName := dbNameForId env.genId }

/-- The `SELECT 1 FROM pg_database WHERE datname = $1` check of
`provisionTenantDatabase`: whether the row set is nonempty. -/
def databaseExistsQuery (dbs : List String) (name : String) : Bool :=
  dbs.contains name

/-- `CREATE DATABASE "name"` against the server's catalog: fails when a
database with that name already exists, otherwise adds it. -/
def createDatabase (dbs : List String) (name : String) : Except String (List String) :=
  if dbs.contains name then .error ("database already exists: " ++ name)
  else .ok (name :: dbs)

/-- Observable output of `provisionTenantDatabase`: whether it threw, the
server catalog afterwards, and whether a `CREATE DATABASE` statement was
issued. -/
structure ProvisionDbOutput where
  threw : Option String
  dbs : List String
  createIssued : Bool
deriving DecidableEq, Repr

/-- `provisionTenantDatabase` (`tenant.service.ts` lines 124-155): connect the
administrative data source (outcome `adminConnectOk`), check existence, and
issue `CREATE DATABASE` only when the check found nothing.  The `finally`
block destroys the administrative connection and does not affect the
catalog. -/
def provisionTenantDatabase (adminConnectOk : Bool) (dbName : String) (dbs : List String) :
    ProvisionDbOutput :=
  if adminConnectOk = false then
    { threw := some "admin connection failed", dbs := dbs, createIssued := false }
  else if databaseExistsQuery dbs dbName then
    { threw := none, dbs := dbs, createIssued := false }
  else
    match createDatabase dbs dbName with
    | .ok dbs' => { threw := none, dbs := dbs', createIssued := true }
    | .error e => { threw := some e, dbs := dbs, createIssued := true }

/-- Whether `needle` occurs as a substring of `hay` (used to state that an
error message identifies a name). -/
def strHas (needle hay : String) : Bool :=
  hay.toList.tails.any (fun l => needle.toList.isPrefixOf l)

theorem getKey_cons {α : Type} (k a : String) (b : α) (tl : List (String × α)) :
    getKey k ((a, b) :: tl) = if k = a then some b else getKey k tl := rfl

theorem setKey_cons {α : Type} (k a : String) (v b : α) (tl : List (String × α)) :
    setKey k v ((a, b) :: tl) =
      if k = a then (k, v) :: tl else (a, b) :: setKey k v tl := rfl

theorem delKey_cons {α : Type} (k a : String) (b : α) (tl : List (String × α)) :
    delKey k ((a, b) :: tl) = if k = a then tl else (a, b) :: delKey k tl := rfl

theorem delKey_setKey_of_getKey_none {α : Type} (k : String) (v : α)
    (l : List (String × α)) (h : getKey k l = none) : delKey k (setKey k v l) = l := by
  induction l with
  | nil => simp [setKey, delKey]
  | cons hd tl ih =>
    obtain ⟨a, b⟩ := hd
    rw [getKey_cons] at h
    by_cases hk : k = a
    · simp [hk] at h
    · rw [if_neg hk] at h
      rw [setKey_cons, if_neg hk, delKey_cons, if_neg hk, ih h]

theorem getKey_setKey_self {α : Type} (k : String) (v : α) (l : List (String × α)) :
    getKey k (setKey k v l) = some v := by
  induction l with
  | nil => simp [setKey, getKey]
  | cons hd tl ih =>
    obtain ⟨a, b⟩ := hd
    by_cases hk : k = a
    · rw [setKey_cons, if_pos hk, getKey_cons, if_pos rfl]
    · rw [setKey_cons, if_neg hk, getKey_cons, if_neg hk, ih]

theorem findActiveTenant_eq_none (t : String) (reg : List Tenant)
    (h : ∀ r ∈ reg, r.id = t → r.active = false) :
    findActiveTenant t reg = none := by
  induction reg with
  | nil => rfl
  | cons r rest ih =>
    have hr := h r (List.mem_cons_self r rest)
    simp only [findActiveTenant]
    rw [if_neg]
    · exact ih (fun x hx => h x (List.mem_cons_of_mem _ hx))
    · rintro ⟨h1, h2⟩
      rw [hr h1] at h2
      cases h2

theorem registryReads_one_of_no_session (reg : List Tenant) (co : Bool) (t : String)
    (st : RouterState)
    (hc : ∀ c, getKey t st.tenantConnections = some c → c.isInitialized = false)
    (hp : getKey t st.initializationPromises = none) :
    (getDataSourceForTenant reg co t st).registryReads = 1 := by
  have hslow : (getDataSourceSlow reg co t st).registryReads = 1 := by
    unfold getDataSourceSlow
    rw [hp]
    unfold initializeTenantConnection
    cases findActiveTenant t reg with
    | none => rfl
    | some r => cases co <;> rfl
  unfold getDataSourceForTenant
  cases hcc : getKey t st.tenantConnections with
  | none => exact hslow
  | some c => simp [hc c hcc, hslow]

/-- C7: the physical database creation step checks existence through the
administrative connection first, issues `CREATE DATABASE` exactly when the
database is absent, never throws (given the administrative connection itself
comes up), leaves a catalog containing the database, and running the step
again against the already-existing database is a no-op without error. -/
theorem provision_database_idempotent (dbName : String) (dbs : List String) :
    (provisionTenantDatabase true dbName dbs).threw = none ∧
    (provisionTenantDatabase true dbName dbs).createIssued = !(dbs.contains dbName) ∧
    (provisionTenantDatabase true dbName dbs).dbs.contains dbName = true ∧
    (dbs.contains dbName = true →
      provisionTenantDatabase true dbName dbs =
        { threw := none, dbs := dbs, createIssued := false }) ∧
    provisionTenantDatabase true dbName (provisionTenantDatabase true dbName dbs).dbs =
      { threw := none, dbs := (provisionTenantDatabase true dbName dbs).dbs,
        createIssued := false } := by
  by_cases h : dbName ∈ dbs <;>
    simp [provisionTenantDatabase, databaseExistsQuery, createDatabase, h]

/-- Witness for `provision_database_idempotent` at a concrete catalog that
already holds the database. -/
theorem provision_database_idempotent_witness :
    (["tenant_a"].contains "tenant_a") = true ∧
    provisionTenantDatabase true "tenant_a" ["tenant_a"] =
      { threw := none, dbs := ["tenant_a"], createIssued := false } :=
  ⟨by decide, (provision_database_idempotent "tenant_a" ["tenant_a"]).2.2.2.1 (by decide)⟩

/-- C8 counterexample: with `max` set to `0`, the session factory's `||`
fallback ignores the set key and produces pool size 5, while the claimed
semantics ("keys that are set override the defaults") demands 0. -/
theorem pool_max_zero_not_overriding :
    (createTenantDataSource
      { host := "h", port := 5432, username := "u", password := "p", database := "d"
        poolOptions := some { max := some 0 } }).poolSize = 5 ∧
    (claimedTenantPoolConfig { max := some 0 }).max = 0 ∧
    (createTenantDataSource
      { host := "h", port := 5432, username := "u", password := "p", database := "d"
        poolOptions := some { max := some 0 } }).poolSize ≠
      (claimedTenantPoolConfig { max := some 0 }).max := by
  refine ⟨rfl, rfl, ?_⟩
  decide

/-- C8 (amended): unset pool-option keys fall back to the documented defaults
(max pool size 5, acquire timeout 60000 ms, idle timeout 30000 ms for tenant
sessions; max 10 for the central connection) and never to zero; a key set to a
nonzero value overrides its default, but `max` set to `0` is treated as unset
(JavaScript `||`), and the factory emits no `min` key of its own — `min` is
passed through to the driver only when the caller set it. -/
theorem pool_option_defaults (cfg : TenantDbConfig) (o : PoolOptions) :
    (cfg.poolOptions = none →
      createTenantDataSource cfg =
        { host := cfg.host, port := cfg.port, username := cfg.username
          password := cfg.password, database := cfg.database, poolSize := 5
          extra := { connectionLimit := 5, acquireTimeout := 60000, timeout := 60000
                     idleTimeoutMillis := 30000, max := none, min := none } }) ∧
    (cfg.poolOptions = some o →
      (o.max = none → (createTenantDataSource cfg).poolSize = 5 ∧
        (createTenantDataSource cfg).extra.connectionLimit = 5) ∧
      (∀ m, o.max = some m → m ≠ 0 → (createTenantDataSource cfg).poolSize = m ∧
        (createTenantDataSource cfg).extra.connectionLimit = m) ∧
      (o.max = some 0 → (createTenantDataSource cfg).poolSize = 5) ∧
      (o.acquireTimeout = none → (createTenantDataSource cfg).extra.acquireTimeout = 60000) ∧
      (∀ a, o.acquireTimeout = some a → (createTenantDataSource cfg).extra.acquireTimeout = a) ∧
      (o.idleTimeoutMillis = none →
        (createTenantDataSource cfg).extra.idleTimeoutMillis = 30000) ∧
      (∀ i, o.idleTimeoutMillis = some i →
        (createTenantDataSource cfg).extra.idleTimeoutMillis = i) ∧
      (createTenantDataSource cfg).extra.min = o.min) ∧
    createCentralDataSource.poolSize = 10 ∧
    createCentralDataSource.connectionLimit = 10 := by
  refine ⟨?_, ?_, rfl, rfl⟩
  · intro h
    simp [createTenantDataSource, h, jsOrNat]
  · intro h
    refine ⟨?_, ?_, ?_, ?_, ?_, ?_, ?_, ?_⟩
    · intro hm
      simp [createTenantDataSource, jsOrNat, h, hm]
    · intro m hm hm0
      simp [createTenantDataSource, jsOrNat, h, hm, hm0]
    · intro hm
      simp [createTenantDataSource, jsOrNat, h, hm]
    · intro ha
      simp [createTenantDataSource, h, ha]
    · intro a ha
      simp [createTenantDataSource, h, ha]
    · intro hi
      simp [createTenantDataSource, h, hi]
    · intro i hi
      simp [createTenantDataSource, h, hi]
    · simp [createTenantDataSource, h]

/-- Witness for `pool_option_defaults`: a set nonzero `max` of 7 overrides the
default. -/
theorem pool_option_defaults_witness :
    (createTenantDataSource
      { host := "h", port := 1, username := "u", password := "p", database := "d"
        poolOptions := some { max := some 7 } }).poolSize = 7 ∧
    (createTenantDataSource
      { host := "h", port := 1, username := "u", password := "p", database := "d"
        poolOptions := some { max := some 7 } }).extra.connectionLimit = 7 :=
  (pool_option_defaults
    { host := "h", port := 1, username := "u", password := "p", database := "d"
      poolOptions := some { max := some 7 } }
    { max := some 7 }).2.1 rfl |>.2.1 7 rfl (by decide)

/-- C10: a cache entry whose pool reports not connected is neither destroyed
nor removed by `closeTenantConnection` — the call returns normally, issues no
`destroy()`, and leaves the manager state unchanged. -/
theorem close_leaves_disconnected_entry (d : Nat → Bool) (t : String) (st : RouterState)
    (c : DataSource) (hc : getKey t st.tenantConnections = some c)
    (hinit : c.isInitialized = false) :
    closeTenantConnection d t st = { threw := none, st := st, destroyCalls := 0 } := by
  unfold closeTenantConnection
  rw [hc]
  simp [hinit]

/-- Witness for `close_leaves_disconnected_entry` at a concrete state with one
disconnected entry. -/
theorem close_leaves_disconnected_entry_witness :
    getKey "t1" ([("t1", ({ dsId := 3, isInitialized := false } : DataSource))]) =
      some { dsId := 3, isInitialized := false } ∧
    ({ dsId := 3, isInitialized := false } : DataSource).isInitialized = false ∧
    closeTenantConnection (fun _ => true) "t1"
      { tenantConnections := [("t1", { dsId := 3, isInitialized := false })]
        initializationPromises := [], nextDsId := 4, nextPid := 0 } =
      { threw := none
        st := { tenantConnections := [("t1", { dsId := 3, isInitialized := false })]
                initializationPromises := [], nextDsId := 4, nextPid := 0 }
        destroyCalls := 0 } :=
  ⟨by decide, rfl,
    close_leaves_disconnected_entry (fun _ => true) "t1"
      { tenantConnections := [("t1", { dsId := 3, isInitialized := false })]
        initializationPromises := [], nextDsId := 4, nextPid := 0 }
      { dsId := 3, isInitialized := false } (by decide) rfl⟩

theorem getDataSource_cache_hit (reg : List Tenant) (co : Bool) (t : String)
    (st : RouterState) (ds : DataSource)
    (hcache : getKey t st.tenantConnections = some ds)
    (hinit : ds.isInitialized = true) :
    getDataSourceForTenant reg co t st =
      { res := .ok ds, st := st, registryReads := 0, factoryCalls := 0 } := by
  unfold getDataSourceForTenant
  rw [hcache]
  simp [hinit]

theorem getDataSource_eq_slow (reg : List Tenant) (co : Bool) (t : String)
    (st : RouterState)
    (hc : ∀ c, getKey t st.tenantConnections = some c → c.isInitialized = false) :
    getDataSourceForTenant reg co t st = getDataSourceSlow reg co t st := by
  unfold getDataSourceForTenant
  cases hcc : getKey t st.tenantConnections with
  | none => rfl
  | some c => simp [hc c hcc]

theorem slow_pending_eq (reg : List Tenant) (co : Bool) (t : String) (st : RouterState)
    (pid : Nat) (hp : getKey t st.initializationPromises = some pid) :
    getDataSourceSlow reg co t st =
      { res := .awaitedPending pid, st := st, registryReads := 0, factoryCalls := 0 } := by
  unfold getDataSourceSlow
  rw [hp]

theorem slow_notFound_eq (reg : List Tenant) (co : Bool) (t : String) (st : RouterState)
    (hp : getKey t st.initializationPromises = none)
    (hf : findActiveTenant t reg = none) :
    getDataSourceSlow reg co t st =
      { res := .err ("Tenant not found or inactive: " ++ t)
        st := { st with
          initializationPromises := delKey t (setKey t st.nextPid st.initializationPromises)
          nextPid := st.nextPid + 1 }
        registryReads := 1, factoryCalls := 0 } := by
  unfold getDataSourceSlow initializeTenantConnection
  rw [hp, hf]

theorem slow_connect_eq (reg : List Tenant) (t : String) (st : RouterState) (r : Tenant)
    (hp : getKey t st.initializationPromises = none)
    (hf : findActiveTenant t reg = some r) :
    getDataSourceSlow reg true t st =
      { res := .ok { dsId := st.nextDsId, isInitialized := true }
        st := { st with
          tenantConnections :=
            setKey t { dsId := st.nextDsId, isInitialized := true } st.tenantConnections
          initializationPromises := delKey t (setKey t st.nextPid st.initializationPromises)
          nextDsId := st.nextDsId + 1
          nextPid := st.nextPid + 1 }
        registryReads := 1, factoryCalls := 1 } := by
  unfold getDataSourceSlow initializeTenantConnection
  rw [hp, hf]
  rfl

theorem slow_connectFail_eq (reg : List Tenant) (t : String) (st : RouterState) (r : Tenant)
    (hp : getKey t st.initializationPromises = none)
    (hf : findActiveTenant t reg = some r) :
    getDataSourceSlow reg false t st =
      { res := .err ("Failed to initialize tenant connection: " ++ t)
        st := { st with
          initializationPromises := delKey t (setKey t st.nextPid st.initializationPromises)
          nextDsId := st.nextDsId + 1
          nextPid := st.nextPid + 1 }
        registryReads := 1, factoryCalls := 1 } := by
  unfold getDataSourceSlow initializeTenantConnection
  rw [hp, hf]
  rfl

theorem slow_ok (reg : List Tenant) (co : Bool) (t : String) (st : RouterState)
    (ds : DataSource) (h : (getDataSourceSlow reg co t st).res = CallResult.ok ds) :
    (getDataSourceSlow reg co t st).st.tenantConnections =
      setKey t ds st.tenantConnections ∧ ds.isInitialized = true := by
  cases hp : getKey t st.initializationPromises with
  | some pid =>
    rw [slow_pending_eq reg co t st pid hp] at h
    simp at h
  | none =>
    cases hf : findActiveTenant t reg with
    | none =>
      rw [slow_notFound_eq reg co t st hp hf] at h
      simp at h
    | some r =>
      cases co with
      | false =>
        rw [slow_connectFail_eq reg t st r hp hf] at h
        simp at h
      | true =>
        rw [slow_connect_eq reg t st r hp hf] at h ⊢
        simp only [CallResult.ok.injEq] at h
        subst h
        exact ⟨rfl, rfl⟩

/-- C2 counterexample: the registry's only record for `t1` is inactive, yet the
call returns the still-connected cached session with zero registry reads
instead of failing with the tenant-not-found error: cache presence bypasses the
activeness check. -/
theorem cached_session_bypasses_inactive_check :
    (getDataSourceForTenant
      [{ id := "t1", name := "Acme", dbHost := "h", dbPort := 5432, dbName := "tenant_t1"
         dbUser := "u", dbPassword := "p", poolOptions := none, active := false
         createdAt := 0 }] true "t1"
      { tenantConnections := [("t1", { dsId := 7, isInitialized := true })]
        initializationPromises := [], nextDsId := 8, nextPid := 0 }).res =
      CallResult.ok { dsId := 7, isInitialized := true } ∧
    (getDataSourceForTenant
      [{ id := "t1", name := "Acme", dbHost := "h", dbPort := 5432, dbName := "tenant_t1"
         dbUser := "u", dbPassword := "p", poolOptions := none, active := false
         createdAt := 0 }] true "t1"
      { tenantConnections := [("t1", { dsId := 7, isInitialized := true })]
        initializationPromises := [], nextDsId := 8, nextPid := 0 }).res ≠
      CallResult.err ("Tenant not found or inactive: " ++ "t1") ∧
    (getDataSourceForTenant
      [{ id := "t1", name := "Acme", dbHost := "h", dbPort := 5432, dbName := "tenant_t1"
         dbUser := "u", dbPassword := "p", poolOptions := none, active := false
         createdAt := 0 }] true "t1"
      { tenantConnections := [("t1", { dsId := 7, isInitialized := true })]
        initializationPromises := [], nextDsId := 8, nextPid := 0 }).registryReads = 0 := by
  decide

/-- C2 (amended): when no connected cached session and no pending
initialization exist for the tenant id, a registry whose records for that id
are all inactive makes `getDataSourceForTenant` fail with the
tenant-not-found error; a still-connected cached session, however, is
returned without re-validating activeness. -/
theorem inactive_rejected_without_cached_session (reg : List Tenant) (co : Bool)
    (t : String) (st : RouterState)
    (hreg : ∀ r ∈ reg, r.id = t → r.active = false)
    (hc : ∀ c, getKey t st.tenantConnections = some c → c.isInitialized = false)
    (hp : getKey t st.initializationPromises = none) :
    (getDataSourceForTenant reg co t st).res =
      CallResult.err ("Tenant not found or inactive: " ++ t) := by
  have hfind := findActiveTenant_eq_none t reg hreg
  have hslow : (getDataSourceSlow reg co t st).res =
      CallResult.err ("Tenant not found or inactive: " ++ t) := by
    simp [getDataSourceSlow, hp, initializeTenantConnection, hfind]
  rw [getDataSource_eq_slow reg co t st hc]
  exact hslow

/-- Witness for `inactive_rejected_without_cached_session`: one inactive
record, empty manager state. -/
theorem inactive_rejected_without_cached_session_witness :
    (getDataSourceForTenant
      [{ id := "t1", name := "Acme", dbHost := "h", dbPort := 5432, dbName := "tenant_t1"
         dbUser := "u", dbPassword := "p", poolOptions := none, active := false
         createdAt := 0 }] true "t1"
      { tenantConnections := [], initializationPromises := [], nextDsId := 0
        nextPid := 0 }).res =
      CallResult.err ("Tenant not found or inactive: " ++ "t1") :=
  inactive_rejected_without_cached_session
    [{ id := "t1", name := "Acme", dbHost := "h", dbPort := 5432, dbName := "tenant_t1"
       dbUser := "u", dbPassword := "p", poolOptions := none, active := false
       createdAt := 0 }] true "t1"
    { tenantConnections := [], initializationPromises := [], nextDsId := 0, nextPid := 0 }
    (by decide) (by decide) rfl

/-- C6: a successful `getDataSourceForTenant` call leaves the returned session
cached with its pool connected, and every subsequent call for the same tenant
id from that state returns the cached session unchanged with zero registry
reads and zero factory constructions, whatever registry contents or connect
outcome the later call would see. -/
theorem cache_reuse_no_registry_read (reg reg' : List Tenant) (co co' : Bool)
    (t : String) (st : RouterState) (ds : DataSource)
    (h : (getDataSourceForTenant reg co t st).res = CallResult.ok ds) :
    getKey t (getDataSourceForTenant reg co t st).st.tenantConnections = some ds ∧
    ds.isInitialized = true ∧
    getDataSourceForTenant reg' co' t (getDataSourceForTenant reg co t st).st =
      { res := CallResult.ok ds, st := (getDataSourceForTenant reg co t st).st
        registryReads := 0, factoryCalls := 0 } := by
  have key : getKey t (getDataSourceForTenant reg co t st).st.tenantConnections = some ds ∧
      ds.isInitialized = true := by
    cases hcc : getKey t st.tenantConnections with
    | some c =>
      by_cases hi : c.isInitialized = true
      · rw [getDataSource_cache_hit reg co t st c hcc hi] at h ⊢
        simp only [CallResult.ok.injEq] at h
        subst h
        exact ⟨hcc, hi⟩
      · have hb : ∀ x, getKey t st.tenantConnections = some x → x.isInitialized = false := by
          intro x hx
          rw [hcc] at hx
          cases hx
          simpa using hi
        rw [getDataSource_eq_slow reg co t st hb] at h ⊢
        have hs := slow_ok reg co t st ds h
        rw [hs.1, getKey_setKey_self]
        exact ⟨rfl, hs.2⟩
    | none =>
      have hb : ∀ x, getKey t st.tenantConnections = some x → x.isInitialized = false := by
        intro x hx
        rw [hcc] at hx
        cases hx
      rw [getDataSource_eq_slow reg co t st hb] at h ⊢
      have hs := slow_ok reg co t st ds h
      rw [hs.1, getKey_setKey_self]
      exact ⟨rfl, hs.2⟩
  exact ⟨key.1, key.2, getDataSource_cache_hit reg' co' t _ ds key.1 key.2⟩

/-- Witness for `cache_reuse_no_registry_read`: a first call that initializes
against a one-record registry, then a second call that reuses the cache. -/
theorem cache_reuse_no_registry_read_witness :
    getKey "t1" (getDataSourceForTenant
      [{ id := "t1", name := "Acme", dbHost := "h", dbPort := 5432, dbName := "tenant_t1"
         dbUser := "u", dbPassword := "p", poolOptions := none, active := true
         createdAt := 0 }] true "t1"
      { tenantConnections := [], initializationPromises := [], nextDsId := 0
        nextPid := 0 }).st.tenantConnections =
      some { dsId := 0, isInitialized := true } ∧
    ({ dsId := 0, isInitialized := true } : DataSource).isInitialized = true ∧
    getDataSourceForTenant [] false "t1" (getDataSourceForTenant
      [{ id := "t1", name := "Acme", dbHost := "h", dbPort := 5432, dbName := "tenant_t1"
         dbUser := "u", dbPassword := "p", poolOptions := none, active := true
         createdAt := 0 }] true "t1"
      { tenantConnections := [], initializationPromises := [], nextDsId := 0
        nextPid := 0 }).st =
      { res := CallResult.ok { dsId := 0, isInitialized := true }
        st := (getDataSourceForTenant
          [{ id := "t1", name := "Acme", dbHost := "h", dbPort := 5432
             dbName := "tenant_t1", dbUser := "u", dbPassword := "p", poolOptions := none
             active := true, createdAt := 0 }] true "t1"
          { tenantConnections := [], initializationPromises := [], nextDsId := 0
            nextPid := 0 }).st
        registryReads := 0, factoryCalls := 0 } :=
  cache_reuse_no_registry_read
    [{ id := "t1", name := "Acme", dbHost := "h", dbPort := 5432, dbName := "tenant_t1"
       dbUser := "u", dbPassword := "p", poolOptions := none, active := true
       createdAt := 0 }] [] true false "t1"
    { tenantConnections := [], initializationPromises := [], nextDsId := 0, nextPid := 0 }
    { dsId := 0, isInitialized := true } (by decide)

theorem getKey_eq_none_of_not_mem {α : Type} (k : String) (l : List (String × α))
    (h : k ∉ l.map Prod.fst) : getKey k l = none := by
  induction l with
  | nil => rfl
  | cons hd tl ih =>
    obtain ⟨a, b⟩ := hd
    simp only [List.map_cons, List.mem_cons] at h
    push_neg at h
    rw [getKey_cons, if_neg h.1]
    exact ih h.2

theorem getKey_delKey_self_of_nodup {α : Type} (k : String) (l : List (String × α))
    (h : (l.map Prod.fst).Nodup) : getKey k (delKey k l) = none := by
  induction l with
  | nil => rfl
  | cons hd tl ih =>
    obtain ⟨a, b⟩ := hd
    simp only [List.map_cons, List.nodup_cons] at h
    by_cases hk : k = a
    · subst hk
      rw [delKey_cons, if_pos rfl]
      exact getKey_eq_none_of_not_mem k tl h.1
    · rw [delKey_cons, if_neg hk, getKey_cons, if_neg hk]
      exact ih h.2

/-- C9 counterexample: when the pool's `destroy()` rejects,
`closeTenantConnection` throws, and since the entry was not removed, an
immediately repeated call for the same id throws again — so the operation is
neither total nor idempotent under destroy failure. -/
theorem close_throws_on_destroy_failure :
    (closeTenantConnection (fun _ => false) "t1"
      { tenantConnections := [("t1", { dsId := 3, isInitialized := true })]
        initializationPromises := [], nextDsId := 4, nextPid := 0 }).threw ≠ none ∧
    (closeTenantConnection (fun _ => false) "t1"
      (closeTenantConnection (fun _ => false) "t1"
        { tenantConnections := [("t1", { dsId := 3, isInitialized := true })]
          initializationPromises := [], nextDsId := 4, nextPid := 0 }).st).threw ≠ none := by
  decide

/-- C9 (amended): provided `destroy()` succeeds on the pool it targets,
`closeTenantConnection` never throws: a connected cached session is destroyed
and its entry removed, a missing entry makes the call a no-op, and an
immediately repeated call is a no-op that does not throw either.  A failing
`destroy()`, however, propagates out of the call. -/
theorem close_idempotent_when_destroy_succeeds (d : Nat → Bool) (t : String)
    (st : RouterState)
    (hw : (st.tenantConnections.map Prod.fst).Nodup)
    (hd : ∀ c, getKey t st.tenantConnections = some c → c.isInitialized = true →
      d c.dsId = true) :
    (closeTenantConnection d t st).threw = none ∧
    closeTenantConnection d t (closeTenantConnection d t st).st =
      { threw := none, st := (closeTenantConnection d t st).st, destroyCalls := 0 } ∧
    (∀ c, getKey t st.tenantConnections = some c → c.isInitialized = true →
      getKey t (closeTenantConnection d t st).st.tenantConnections = none) ∧
    (getKey t st.tenantConnections = none →
      closeTenantConnection d t st = { threw := none, st := st, destroyCalls := 0 }) := by
  cases hc : getKey t st.tenantConnections with
  | none =>
    have e1 : closeTenantConnection d t st =
        { threw := none, st := st, destroyCalls := 0 } := by
      unfold closeTenantConnection
      rw [hc]
    refine ⟨by rw [e1], ?_, ?_, fun _ => e1⟩
    · rw [e1]
      exact e1
    · intro c hcc
      cases hcc
  | some c =>
    by_cases hi : c.isInitialized = true
    · have hdc := hd c hc hi
      have e1 : closeTenantConnection d t st =
          { threw := none
            st := { st with tenantConnections := delKey t st.tenantConnections }
            destroyCalls := 1 } := by
        unfold closeTenantConnection
        rw [hc]
        simp [hi, hdc]
      have hdel : getKey t (delKey t st.tenantConnections) = none :=
        getKey_delKey_self_of_nodup t st.tenantConnections hw
      have e2 : closeTenantConnection d t
          { st with tenantConnections := delKey t st.tenantConnections } =
          { threw := none
            st := { st with tenantConnections := delKey t st.tenantConnections }
            destroyCalls := 0 } := by
        unfold closeTenantConnection
        rw [show getKey t ({ st with
          tenantConnections := delKey t st.tenantConnections } : RouterState).tenantConnections =
            none from hdel]
      refine ⟨by rw [e1], ?_, ?_, ?_⟩
      · rw [e1]
        exact e2
      · intro c' _ _
        rw [e1]
        exact hdel
      · intro h0
        cases h0
    · have e1 : closeTenantConnection d t st =
          { threw := none, st := st, destroyCalls := 0 } := by
        unfold closeTenantConnection
        rw [hc]
        simp [hi]
      refine ⟨by rw [e1], ?_, ?_, fun _ => e1⟩
      · rw [e1]
        exact e1
      · intro c' hcc hinit
        cases hcc
        exact absurd hinit hi

/-- Witness for `close_idempotent_when_destroy_succeeds`: one connected entry
whose destroy succeeds — the close returns normally and the repeat is a
no-op. -/
theorem close_idempotent_when_destroy_succeeds_witness :
    (closeTenantConnection (fun _ => true) "t1"
      { tenantConnections := [("t1", { dsId := 3, isInitialized := true })]
        initializationPromises := [], nextDsId := 4, nextPid := 0 }).threw = none ∧
    closeTenantConnection (fun _ => true) "t1"
      (closeTenantConnection (fun _ => true) "t1"
        { tenantConnections := [("t1", { dsId := 3, isInitialized := true })]
          initializationPromises := [], nextDsId := 4, nextPid := 0 }).st =
      { threw := none
        st := (closeTenantConnection (fun _ => true) "t1"
          { tenantConnections := [("t1", { dsId := 3, isInitialized := true })]
            initializationPromises := [], nextDsId := 4, nextPid := 0 }).st
        destroyCalls := 0 } := by
  have h := close_idempotent_when_destroy_succeeds (fun _ => true) "t1"
    { tenantConnections := [("t1", { dsId := 3, isInitialized := true })]
      initializationPromises := [], nextDsId := 4, nextPid := 0 }
    (by decide) (by intro c _ _; rfl)
  exact ⟨h.1, h.2.1⟩

/-- C5 counterexample: one cached connected session whose `destroy()` rejects:
`closeAllConnections` throws (the `Promise.all` rejection propagates) and the
session cache is not cleared — close failures are not confined to logging. -/
theorem closeAll_throws_on_destroy_failure :
    (closeAllConnections (fun _ => false)
      { tenantConnections := [("t1", { dsId := 1, isInitialized := true })]
        initializationPromises := [], nextDsId := 2, nextPid := 0 }).threw ≠ none ∧
    (closeAllConnections (fun _ => false)
      { tenantConnections := [("t1", { dsId := 1, isInitialized := true })]
        initializationPromises := [], nextDsId := 2, nextPid := 0 }).st.tenantConnections ≠
      [] := by
  decide

/-- C5 (amended): when every individual pool destroy succeeds,
`closeAllConnections` closes every connected cached session (one destroy per
connected entry, all awaited), returns normally, clears both the session cache
and the pending map, and an immediately repeated call is a no-op; an
individual destroy failure instead propagates to the caller and the cache is
not cleared. -/
theorem closeAll_best_effort_on_success (d : Nat → Bool) (st : RouterState)
    (hd : ∀ e ∈ st.tenantConnections, e.2.isInitialized = true → d e.2.dsId = true) :
    closeAllConnections d st =
      { threw := none
        st := { st with tenantConnections := [], initializationPromises := [] }
        destroyCalls :=
          (st.tenantConnections.filter (fun e => e.2.isInitialized)).length } ∧
    closeAllConnections d (closeAllConnections d st).st =
      { threw := none, st := (closeAllConnections d st).st, destroyCalls := 0 } := by
  have hall : (st.tenantConnections.filter (fun e => e.2.isInitialized)).all
      (fun e => d e.2.dsId) = true := by
    rw [List.all_eq_true]
    intro e he
    rw [List.mem_filter] at he
    exact hd e he.1 he.2
  have e1 : closeAllConnections d st =
      { threw := none
        st := { st with tenantConnections := [], initializationPromises := [] }
        destroyCalls :=
          (st.tenantConnections.filter (fun e => e.2.isInitialized)).length } := by
    unfold closeAllConnections
    dsimp only
    rw [hall]
    rfl
  refine ⟨e1, ?_⟩
  rw [e1]
  rfl

/-- Witness for `closeAll_best_effort_on_success`: two cached sessions, one
connected, all destroys succeeding. -/
theorem closeAll_best_effort_on_success_witness :
    closeAllConnections (fun _ => true)
      { tenantConnections := [("t1", { dsId := 1, isInitialized := true }),
                              ("t2", { dsId := 2, isInitialized := false })]
        initializationPromises := [("t3", 5)], nextDsId := 3, nextPid := 6 } =
      { threw := none
        st := { tenantConnections := []
                initializationPromises := [], nextDsId := 3, nextPid := 6 }
        destroyCalls := 1 } := by
  have h := closeAll_best_effort_on_success (fun _ => true)
    { tenantConnections := [("t1", { dsId := 1, isInitialized := true }),
                            ("t2", { dsId := 2, isInitialized := false })]
      initializationPromises := [("t3", 5)], nextDsId := 3, nextPid := 6 }
    (by intro e _ _; rfl)
  simpa using h.1

theorem failed_slow_not_cached (reg reg' : List Tenant) (co co' : Bool) (t : String)
    (st : RouterState) (m : String)
    (hb : ∀ c, getKey t st.tenantConnections = some c → c.isInitialized = false)
    (h : (getDataSourceSlow reg co t st).res = CallResult.err m) :
    (getDataSourceSlow reg co t st).st.tenantConnections = st.tenantConnections ∧
    getKey t (getDataSourceSlow reg co t st).st.initializationPromises = none ∧
    (getDataSourceForTenant reg' co' t (getDataSourceSlow reg co t st).st).registryReads =
      1 := by
  cases hp : getKey t st.initializationPromises with
  | some pid =>
    rw [slow_pending_eq reg co t st pid hp] at h
    simp at h
  | none =>
    have hclean : getKey t (delKey t (setKey t st.nextPid st.initializationPromises)) =
        none := by
      rw [delKey_setKey_of_getKey_none t st.nextPid st.initializationPromises hp]
      exact hp
    cases hf : findActiveTenant t reg with
    | none =>
      rw [slow_notFound_eq reg co t st hp hf]
      refine ⟨rfl, hclean, ?_⟩
      exact registryReads_one_of_no_session reg' co' t _ (fun c hc => hb c hc) hclean
    | some r =>
      cases co with
      | true =>
        rw [slow_connect_eq reg t st r hp hf] at h
        simp at h
      | false =>
        rw [slow_connectFail_eq reg t st r hp hf]
        refine ⟨rfl, hclean, ?_⟩
        exact registryReads_one_of_no_session reg' co' t _ (fun c hc => hb c hc) hclean

/-- C4: a `getDataSourceForTenant` call whose initialization fails (registry
miss or connect failure) caches nothing — the session cache is unchanged — and
removes the pending-initialization entry, so a subsequent call for the same
tenant id performs a fresh initialization with its own registry read instead
of observing a cached failure. -/
theorem failed_init_not_cached (reg reg' : List Tenant) (co co' : Bool) (t : String)
    (st : RouterState) (m : String)
    (h : (getDataSourceForTenant reg co t st).res = CallResult.err m) :
    (getDataSourceForTenant reg co t st).st.tenantConnections = st.tenantConnections ∧
    getKey t (getDataSourceForTenant reg co t st).st.initializationPromises = none ∧
    (getDataSourceForTenant reg' co' t
      (getDataSourceForTenant reg co t st).st).registryReads = 1 := by
  cases hcc : getKey t st.tenantConnections with
  | some c =>
    by_cases hi : c.isInitialized = true
    · rw [getDataSource_cache_hit reg co t st c hcc hi] at h
      simp at h
    · have hb : ∀ x, getKey t st.tenantConnections = some x → x.isInitialized = false := by
        intro x hx
        rw [hcc] at hx
        cases hx
        simpa using hi
      rw [getDataSource_eq_slow reg co t st hb] at h ⊢
      exact failed_slow_not_cached reg reg' co co' t st m hb h
  | none =>
    have hb : ∀ x, getKey t st.tenantConnections = some x → x.isInitialized = false := by
      intro x hx
      rw [hcc] at hx
      cases hx
    rw [getDataSource_eq_slow reg co t st hb] at h ⊢
    exact failed_slow_not_cached reg reg' co co' t st m hb h

/-- Witness for `failed_init_not_cached`: the registry has the record but the
connect fails; the failure is not cached and the retry reads the registry
again. -/
theorem failed_init_not_cached_witness :
    (getDataSourceForTenant
      [{ id := "t1", name := "Acme", dbHost := "h", dbPort := 5432, dbName := "tenant_t1"
         dbUser := "u", dbPassword := "p", poolOptions := none, active := true
         createdAt := 0 }] false "t1"
      { tenantConnections := [], initializationPromises := [], nextDsId := 0
        nextPid := 0 }).st.tenantConnections = [] ∧
    getKey "t1" (getDataSourceForTenant
      [{ id := "t1", name := "Acme", dbHost := "h", dbPort := 5432, dbName := "tenant_t1"
         dbUser := "u", dbPassword := "p", poolOptions := none, active := true
         createdAt := 0 }] false "t1"
      { tenantConnections := [], initializationPromises := [], nextDsId := 0
        nextPid := 0 }).st.initializationPromises = none ∧
    (getDataSourceForTenant
      [{ id := "t1", name := "Acme", dbHost := "h", dbPort := 5432, dbName := "tenant_t1"
         dbUser := "u", dbPassword := "p", poolOptions := none, active := true
         createdAt := 0 }] true "t1"
      (getDataSourceForTenant
        [{ id := "t1", name := "Acme", dbHost := "h", dbPort := 5432, dbName := "tenant_t1"
           dbUser := "u", dbPassword := "p", poolOptions := none, active := true
           createdAt := 0 }] false "t1"
        { tenantConnections := [], initializationPromises := [], nextDsId := 0
          nextPid := 0 }).st).registryReads = 1 :=
  failed_init_not_cached
    [{ id := "t1", name := "Acme", dbHost := "h", dbPort := 5432, dbName := "tenant_t1"
       dbUser := "u", dbPassword := "p", poolOptions := none, active := true
       createdAt := 0 }]
    [{ id := "t1", name := "Acme", dbHost := "h", dbPort := 5432, dbName := "tenant_t1"
       dbUser := "u", dbPassword := "p", poolOptions := none, active := true
       createdAt := 0 }] false true "t1"
    { tenantConnections := [], initializationPromises := [], nextDsId := 0, nextPid := 0 }
    ("Failed to initialize tenant connection: " ++ "t1") (by decide)

theorem updateTenant_of_fresh (id : String) (f : Tenant → Tenant) (reg : List Tenant)
    (hfresh : ∀ r ∈ reg, r.id ≠ id) : updateTenant id f reg = reg := by
  induction reg with
  | nil => rfl
  | cons r rest ih =>
    unfold updateTenant at ih ⊢
    simp only [List.map_cons]
    rw [if_neg (hfresh r (List.mem_cons_self r rest))]
    rw [ih (fun x hx => hfresh x (List.mem_cons_of_mem _ hx))]

theorem updateTenant_append (id : String) (f : Tenant → Tenant) (reg : List Tenant)
    (t0 : Tenant) (hid : t0.id = id) (hfresh : ∀ r ∈ reg, r.id ≠ id) :
    updateTenant id f (reg ++ [t0]) = reg ++ [f t0] := by
  have h1 := updateTenant_of_fresh id f reg hfresh
  unfold updateTenant at h1 ⊢
  rw [List.map_append, h1]
  simp [hid]

theorem active_flag_in_append (reg : List Tenant) (rec : Tenant) (id : String)
    (hfresh : ∀ r ∈ reg, r.id ≠ id) (hrec : rec.id = id) :
    (∃ r ∈ reg ++ [rec], r.id = id) ∧
    (∀ r ∈ reg ++ [rec], r.id = id → r.active = rec.active) := by
  constructor
  · exact ⟨rec, List.mem_append_right _ (List.mem_singleton.mpr rfl), hrec⟩
  · intro r hr hid2
    rcases List.mem_append.mp hr with h | h
    · exact absurd hid2 (hfresh r h)
    · rw [List.mem_singleton.mp h]

/-- C3 counterexample: a concrete `createTenant` run with tenant name `Acme`
whose migration step fails with cause `boom` throws
`BadRequestException('Tenant creation failed: boom')` — the aggregated error
names the underlying cause but not the tenant name, which only reaches the
log. -/
theorem creation_error_omits_tenant_name :
    (createTenant
      { genId := "id-1", save1Err := none, save2Err := none, provisionErr := none
        migrateErr := some "boom", adminUserErr := none, tokenErr := none
        adminTokenValue := "tok", now := 0 }
      { name := "Acme"
        database := { host := "db", port := none, username := "u", password := "p" }
        poolOptions := none, adminUser := none } []).1 =
      CreateTenantResult.badRequest ("Tenant creation failed: " ++ "boom") ∧
    strHas "boom" ("Tenant creation failed: " ++ "boom") = true ∧
    strHas "Acme" ("Tenant creation failed: " ++ "boom") = false := by
  decide

/-- C3 (amended): when the initial registry insert succeeds, the inserted
record is never deleted; if any later step fails with cause `c`, the run
throws the single aggregated error `Tenant creation failed: c` — identifying
the underlying cause, though not the tenant name — and the record ends with
`active = false`; the record ends with `active = true` exactly when every step
succeeded, and then the response reports `status = provisioned`. -/
theorem provisioning_failure_marks_inactive (env : ProvisionEnv) (dto : CreateTenantDto)
    (reg : List Tenant) (h1 : env.save1Err = none)
    (hfresh : ∀ r ∈ reg, r.id ≠ env.genId) :
    (∃ r ∈ (createTenant env dto reg).2, r.id = env.genId) ∧
    (∀ c, firstFailureAfterInsert env dto = some c →
      (createTenant env dto reg).1 =
        CreateTenantResult.badRequest ("Tenant creation failed: " ++ c) ∧
      ∀ r ∈ (createTenant env dto reg).2, r.id = env.genId → r.active = false) ∧
    (firstFailureAfterInsert env dto = none →
      (createTenant env dto reg).1 = CreateTenantResult.ok
        { id := env.genId, name := dto.name, active := true, createdAt := env.now
          adminToken := (match dto.adminUser with
            | none => none
            | some _ => some env.adminTokenValue)
          status := "provisioned" } ∧
      ∀ r ∈ (createTenant env dto reg).2, r.id = env.genId → r.active = true) := by
  have hupdIn := updateTenant_append env.genId
    (fun r => { r with dbName := dbNameForId env.genId }) reg (insertedTenant env dto)
    rfl hfresh
  have hupdOut1 := updateTenant_append env.genId
    (fun r => { r with active := false }) reg (insertedTenant env dto) rfl hfresh
  have hupdOut2 := updateTenant_append env.genId
    (fun r => { r with active := false }) reg
    { insertedTenant env dto with dbName := dbNameForId env.genId } rfl hfresh
  have hflagIns := active_flag_in_append reg
    { insertedTenant env dto with active := false } env.genId hfresh rfl
  have hflagProv := active_flag_in_append reg
    { { insertedTenant env dto with dbName := dbNameForId env.genId } with
      active := false } env.genId hfresh rfl
  have hflagOk := active_flag_in_append reg
    { insertedTenant env dto with dbName := dbNameForId env.genId } env.genId hfresh rfl
  cases h2 : env.save2Err with
  | some e =>
    have hff : firstFailureAfterInsert env dto = some e := by
      simp [firstFailureAfterInsert, h2]
    have ecr : createTenant env dto reg =
        (.badRequest ("Tenant creation failed: " ++ e),
         updateTenant env.genId (fun r => { r with active := false })
           (reg ++ [insertedTenant env dto])) := by
      unfold createTenant
      rw [h1]
      dsimp only
      rw [h2]
      rfl
    rw [ecr, hupdOut1]
    refine ⟨hflagIns.1, ?_, ?_⟩
    · intro c hcf
      rw [hff] at hcf
      injection hcf with hce
      subst hce
      exact ⟨rfl, hflagIns.2⟩
    · intro h0
      rw [hff] at h0
      cases h0
  | none =>
    cases h3 : env.provisionErr with
    | some e =>
      have hff : firstFailureAfterInsert env dto = some e := by
        simp [firstFailureAfterInsert, h2, h3]
      have ecr : createTenant env dto reg =
          (.badRequest ("Tenant creation failed: " ++ e),
           updateTenant env.genId (fun r => { r with active := false })
             (updateTenant env.genId
               (fun r => { r with dbName := dbNameForId env.genId })
               (reg ++ [insertedTenant env dto]))) := by
        unfold createTenant
        rw [h1]
        dsimp only
        rw [h2]
        dsimp only
        rw [h3]
        rfl
      rw [ecr, hupdIn, hupdOut2]
      refine ⟨hflagProv.1, ?_, ?_⟩
      · intro c hcf
        rw [hff] at hcf
        injection hcf with hce
        subst hce
        exact ⟨rfl, hflagProv.2⟩
      · intro h0
        rw [hff] at h0
        cases h0
    | none =>
      cases h4 : env.migrateErr with
      | some e =>
        have hff : firstFailureAfterInsert env dto = some e := by
          simp [firstFailureAfterInsert, h2, h3, h4]
        have ecr : createTenant env dto reg =
            (.badRequest ("Tenant creation failed: " ++ e),
             updateTenant env.genId (fun r => { r with active := false })
               (updateTenant env.genId
                 (fun r => { r with dbName := dbNameForId env.genId })
                 (reg ++ [insertedTenant env dto]))) := by
          unfold createTenant
          rw [h1]
          dsimp only
          rw [h2]
          dsimp only
          rw [h3]
          dsimp only
          rw [h4]
          rfl
        rw [ecr, hupdIn, hupdOut2]
        refine ⟨hflagProv.1, ?_, ?_⟩
        · intro c hcf
          rw [hff] at hcf
          injection hcf with hce
          subst hce
          exact ⟨rfl, hflagProv.2⟩
        · intro h0
          rw [hff] at h0
          cases h0
      | none =>
        cases ha : dto.adminUser with
        | none =>
          have hff : firstFailureAfterInsert env dto = none := by
            simp [firstFailureAfterInsert, h2, h3, h4, ha]
          have ecr : createTenant env dto reg =
              (.ok { id := env.genId, name := dto.name, active := true
                     createdAt := env.now, adminToken := none
                     status := "provisioned" },
               updateTenant env.genId
                 (fun r => { r with dbName := dbNameForId env.genId })
                 (reg ++ [insertedTenant env dto])) := by
            unfold createTenant
            rw [h1]
            dsimp only
            rw [h2]
            dsimp only
            rw [h3]
            dsimp only
            rw [h4]
            dsimp only
            rw [ha]
            rfl
          rw [ecr, hupdIn]
          refine ⟨hflagOk.1, ?_, ?_⟩
          · intro c hcf
            rw [hff] at hcf
            cases hcf
          · intro _
            exact ⟨rfl, hflagOk.2⟩
        | some u =>
          cases h5 : env.adminUserErr with
          | some e =>
            have hff : firstFailureAfterInsert env dto = some e := by
              simp [firstFailureAfterInsert, h2, h3, h4, ha, h5]
            have ecr : createTenant env dto reg =
                (.badRequest ("Tenant creation failed: " ++ e),
                 updateTenant env.genId (fun r => { r with active := false })
                   (updateTenant env.genId
                     (fun r => { r with dbName := dbNameForId env.genId })
                     (reg ++ [insertedTenant env dto]))) := by
              unfold createTenant
              rw [h1]
              dsimp only
              rw [h2]
              dsimp only
              rw [h3]
              dsimp only
              rw [h4]
              dsimp only
              rw [ha]
              dsimp only
              rw [h5]
              rfl
            rw [ecr, hupdIn, hupdOut2]
            refine ⟨hflagProv.1, ?_, ?_⟩
            · intro c hcf
              rw [hff] at hcf
              injection hcf with hce
              subst hce
              exact ⟨rfl, hflagProv.2⟩
            · intro h0
              rw [hff] at h0
              cases h0
          | none =>
            cases h6 : env.tokenErr with
            | some e =>
              have hff : firstFailureAfterInsert env dto = some e := by
                simp [firstFailureAfterInsert, h2, h3, h4, ha, h5, h6]
              have ecr : createTenant env dto reg =
                  (.badRequest ("Tenant creation failed: " ++ e),
                   updateTenant env.genId (fun r => { r with active := false })
                     (updateTenant env.genId
                       (fun r => { r with dbName := dbNameForId env.genId })
                       (reg ++ [insertedTenant env dto]))) := by
                unfold createTenant
                rw [h1]
                dsimp only
                rw [h2]
                dsimp only
                rw [h3]
                dsimp only
                rw [h4]
                dsimp only
                rw [ha]
                dsimp only
                rw [h5]
                dsimp only
                rw [h6]
                rfl
              rw [ecr, hupdIn, hupdOut2]
              refine ⟨hflagProv.1, ?_, ?_⟩
              · intro c hcf
                rw [hff] at hcf
                injection hcf with hce
                subst hce
                exact ⟨rfl, hflagProv.2⟩
              · intro h0
                rw [hff] at h0
                cases h0
            | none =>
              have hff : firstFailureAfterInsert env dto = none := by
                simp [firstFailureAfterInsert, h2, h3, h4, ha, h5, h6]
              have ecr : createTenant env dto reg =
                  (.ok { id := env.genId, name := dto.name, active := true
                         createdAt := env.now
                         adminToken := some env.adminTokenValue
                         status := "provisioned" },
                   updateTenant env.genId
                     (fun r => { r with dbName := dbNameForId env.genId })
                     (reg ++ [insertedTenant env dto])) := by
                unfold createTenant
                rw [h1]
                dsimp only
                rw [h2]
                dsimp only
                rw [h3]
                dsimp only
                rw [h4]
                dsimp only
                rw [ha]
                dsimp only
                rw [h5]
                dsimp only
                rw [h6]
                rfl
              rw [ecr, hupdIn]
              refine ⟨hflagOk.1, ?_, ?_⟩
              · intro c hcf
                rw [hff] at hcf
                cases hcf
              · intro _
                exact ⟨rfl, hflagOk.2⟩

/-- Witness for `provisioning_failure_marks_inactive`: the concrete failing
run of the counterexample, with the failing-step implication discharged. -/
theorem provisioning_failure_marks_inactive_witness :
    (createTenant
      { genId := "id-1", save1Err := none, save2Err := none, provisionErr := none
        migrateErr := some "boom", adminUserErr := none, tokenErr := none
        adminTokenValue := "tok", now := 0 }
      { name := "Acme"
        database := { host := "db", port := none, username := "u", password := "p" }
        poolOptions := none, adminUser := none } []).1 =
      CreateTenantResult.badRequest ("Tenant creation failed: " ++ "boom") := by
  have h := provisioning_failure_marks_inactive
    { genId := "id-1", save1Err := none, save2Err := none, provisionErr := none
      migrateErr := some "boom", adminUserErr := none, tokenErr := none
      adminTokenValue := "tok", now := 0 }
    { name := "Acme"
      database := { host := "db", port := none, username := "u", password := "p" }
      poolOptions := none, adminUser := none } [] rfl (by simp)
  exact (h.2.1 "boom" (by decide)).1

theorem concArrive_joined (t : String) (caller : Nat) (s : ConcState) (p : Nat)
    (hcache : getKey t s.st.tenantConnections = none)
    (hp : getKey t s.st.initializationPromises = some p) :
    concArrive t caller s = { s with joined := s.joined ++ [caller] } := by
  unfold concArrive concJoin
  rw [hcache, hp]

theorem concArrive_start (t : String) (caller : Nat) (s : ConcState)
    (hcache : getKey t s.st.tenantConnections = none)
    (hp : getKey t s.st.initializationPromises = none) :
    concArrive t caller s =
      { s with
        st := { s.st with
          initializationPromises := setKey t s.st.nextPid s.st.initializationPromises
          nextPid := s.st.nextPid + 1 }
        joined := s.joined ++ [caller] } := by
  unfold concArrive concJoin
  rw [hcache, hp]

theorem concFold_joined (t : String) (callers : List Nat) (s : ConcState) (p : Nat)
    (hcache : getKey t s.st.tenantConnections = none)
    (hp : getKey t s.st.initializationPromises = some p) :
    callers.foldl (fun s c => concArrive t c s) s =
      { s with joined := s.joined ++ callers } := by
  induction callers generalizing s with
  | nil => simp
  | cons c rest ih =>
    rw [List.foldl_cons, concArrive_joined t c s p hcache hp]
    rw [ih { s with joined := s.joined ++ [c] } hcache hp]
    simp

/-- C1 counterexample: two concurrent `getDataSourceForTenant` calls for a
tenant id with no cached session and no pending initialization, whose registry
lookup finds no active record: both callers join the single in-flight
initialization and receive the same tenant-not-found failure, but zero pool
objects are constructed by the session factory — not exactly one, as the claim
states for the error case. -/
theorem single_flight_notFound_constructs_no_pool :
    (concRun "t1" [0, 1] InitOutcome.notFound
      { st := { tenantConnections := [], initializationPromises := [], nextDsId := 0
                nextPid := 0 }
        joined := [], served := [], factoryCalls := 0 }).2.factoryCalls = 0 ∧
    (concRun "t1" [0, 1] InitOutcome.notFound
      { st := { tenantConnections := [], initializationPromises := [], nextDsId := 0
                nextPid := 0 }
        joined := [], served := [], factoryCalls := 0 }).2.factoryCalls ≠ 1 ∧
    (concRun "t1" [0, 1] InitOutcome.notFound
      { st := { tenantConnections := [], initializationPromises := [], nextDsId := 0
                nextPid := 0 }
        joined := [], served := [], factoryCalls := 0 }).1 =
      CallResult.err ("Tenant not found or inactive: " ++ "t1") ∧
    (concRun "t1" [0, 1] InitOutcome.notFound
      { st := { tenantConnections := [], initializationPromises := [], nextDsId := 0
                nextPid := 0 }
        joined := [], served := [], factoryCalls := 0 }).2.joined = [0, 1] := by
  decide

/-- C1 (amended): for any number of concurrent `getDataSourceForTenant` calls
for the same tenant id with no cached session and no pending initialization,
every caller joins the one in-flight initialization (none is served a
different session, none starts a second initialization) and all receive the
single settle result; at most one pool object is constructed by the session
factory — exactly one when the registry lookup finds the active record (the
connect outcome notwithstanding), and none when the lookup fails; afterwards
no pending entry remains, and on success the one constructed session is the
cached one all callers received. -/
theorem single_flight_at_most_one_pool (t : String) (first : Nat) (rest : List Nat)
    (o : InitOutcome) (s : ConcState)
    (hcache : getKey t s.st.tenantConnections = none)
    (hp : getKey t s.st.initializationPromises = none) :
    (concRun t (first :: rest) o s).2.served = s.served ∧
    (concRun t (first :: rest) o s).2.joined = s.joined ++ (first :: rest) ∧
    (concRun t (first :: rest) o s).2.factoryCalls =
      s.factoryCalls + (if o = InitOutcome.notFound then 0 else 1) ∧
    getKey t (concRun t (first :: rest) o s).2.st.initializationPromises = none ∧
    (o = InitOutcome.connected →
      (concRun t (first :: rest) o s).1 =
        CallResult.ok { dsId := s.st.nextDsId, isInitialized := true } ∧
      getKey t (concRun t (first :: rest) o s).2.st.tenantConnections =
        some { dsId := s.st.nextDsId, isInitialized := true }) ∧
    (o ≠ InitOutcome.connected →
      (∃ m, (concRun t (first :: rest) o s).1 = CallResult.err m) ∧
      getKey t (concRun t (first :: rest) o s).2.st.tenantConnections = none) := by
  have hclean : getKey t (delKey t (setKey t s.st.nextPid s.st.initializationPromises)) =
      none := by
    rw [delKey_setKey_of_getKey_none t s.st.nextPid s.st.initializationPromises hp]
    exact hp
  have hrun : concRun t (first :: rest) o s =
      concSettle t o
        { s with
          st := { s.st with
            initializationPromises := setKey t s.st.nextPid s.st.initializationPromises
            nextPid := s.st.nextPid + 1 }
          joined := (s.joined ++ [first]) ++ rest } := by
    unfold concRun
    rw [List.foldl_cons, concArrive_start t first s hcache hp]
    rw [concFold_joined t rest
      { s with
        st := { s.st with
          initializationPromises := setKey t s.st.nextPid s.st.initializationPromises
          nextPid := s.st.nextPid + 1 }
        joined := s.joined ++ [first] }
      s.st.nextPid hcache
      (getKey_setKey_self t s.st.nextPid s.st.initializationPromises)]
  rw [hrun]
  cases o with
  | notFound =>
    unfold concSettle
    refine ⟨rfl, by simp, by simp, hclean, ?_, ?_⟩
    · intro h0
      cases h0
    · intro _
      exact ⟨⟨"Tenant not found or inactive: " ++ t, rfl⟩, hcache⟩
  | connectFail =>
    unfold concSettle
    refine ⟨rfl, by simp, by simp, hclean, ?_, ?_⟩
    · intro h0
      cases h0
    · intro _
      exact ⟨⟨"Failed to initialize tenant connection: " ++ t, rfl⟩, hcache⟩
  | connected =>
    unfold concSettle
    refine ⟨rfl, by simp, by simp, hclean, ?_, ?_⟩
    · intro _
      exact ⟨rfl, getKey_setKey_self t _ _⟩
    · intro h0
      exact absurd rfl h0

/-- Witness for `single_flight_at_most_one_pool`: two concurrent callers on a
fresh manager, lookup succeeding and connect resolving — one factory
construction, both callers joined on the one promise. -/
theorem single_flight_at_most_one_pool_witness :
    (concRun "t1" [0, 1] InitOutcome.connected
      { st := { tenantConnections := [], initializationPromises := [], nextDsId := 0
                nextPid := 0 }
        joined := [], served := [], factoryCalls := 0 }).2.factoryCalls = 1 ∧
    (concRun "t1" [0, 1] InitOutcome.connected
      { st := { tenantConnections := [], initializationPromises := [], nextDsId := 0
                nextPid := 0 }
        joined := [], served := [], factoryCalls := 0 }).2.joined = [0, 1] ∧
    (concRun "t1" [0, 1] InitOutcome.connected
      { st := { tenantConnections := [], initializationPromises := [], nextDsId := 0
                nextPid := 0 }
        joined := [], served := [], factoryCalls := 0 }).1 =
      CallResult.ok { dsId := 0, isInitialized := true } := by
  have h := single_flight_at_most_one_pool "t1" 0 [1] InitOutcome.connected
    { st := { tenantConnections := [], initializationPromises := [], nextDsId := 0
              nextPid := 0 }
      joined := [], served := [], factoryCalls := 0 } rfl rfl
  exact ⟨by simpa using h.2.2.1, by simpa using h.2.1, (h.2.2.2.2.1 rfl).1⟩

end NestMultiTenant
